import Mathlib

/-!
Verification development for the ERGO command-line client (`ergo.py`).

The Python source is shallowly embedded: file contents are `List Nat`
(byte values 0..255), the local filesystem is an association list from
path to contents, machine words are `Nat` reduced modulo `2 ^ 32` where
the algorithm requires it, and fallible operations return `Except` or a
dedicated outcome type.  `hashlib.md5` is embedded as a complete
executable MD5 (RFC 1321) so that checksum claims can be evaluated on
concrete inputs; it is validated below against the standard MD5 test
vectors.
-/

set_option maxRecDepth 4096

namespace Ergo

/-! ### Bytes, words and hex formatting -/

/-- Modulus for 32-bit arithmetic. -/
def M32 : Nat := 4294967296

/-- Little-endian bytes of `x`, exactly `n` of them (low byte first). -/
def leBytes (x n : Nat) : List Nat :=
  match n with
  | 0 => []
  | m + 1 => x % 256 :: leBytes (x / 256) m

/-- Group a byte list into little-endian 32-bit words, four bytes per
word; a trailing group of fewer than four bytes is dropped (never
happens on MD5 blocks, whose length is a multiple of 64). -/
def leWords4 : List Nat → List Nat
  | b0 :: b1 :: b2 :: b3 :: rest =>
      (b0 + 256 * b1 + 65536 * b2 + 16777216 * b3) :: leWords4 rest
  | _ => []

/-- Lowercase hexadecimal digit for `n < 16`. -/
def hexDigit (n : Nat) : Char :=
  if n < 10 then Char.ofNat (48 + n) else Char.ofNat (87 + n)

/-- Lowercase hex string of a byte list, two digits per byte, as
produced by Python's `hexdigest()`. -/
def hexOfBytes (bytes : List Nat) : String :=
  String.mk (bytes.foldr (fun b acc => hexDigit (b / 16 % 16) :: hexDigit (b % 16) :: acc) [])

/-! ### Sequential chunked reading

`chunksRead chunkSize data` embeds the read loop
`while True: data = fp.read(chunk_size); if not data: break`: the file
is consumed in blocks of `chunkSize` bytes and only non-empty blocks
are produced.  `fp.read 0` returns the empty bytestring, so a zero
chunk size yields no chunks. -/

/-- Fuel-driven worker for `chunksRead` (structural recursion on the
fuel, so that the kernel can evaluate it; the fuel is always taken to
be the length of the data, which suffices because every non-empty read
consumes at least one byte). -/
def chunksReadFuel (chunkSize : Nat) : Nat → List Nat → List (List Nat)
  | 0, _ => []
  | _, [] => []
  | fuel + 1, b :: rest =>
      if chunkSize = 0 then []
      else (b :: rest).take chunkSize :: chunksReadFuel chunkSize fuel ((b :: rest).drop chunkSize)

def chunksRead (chunkSize : Nat) (data : List Nat) : List (List Nat) :=
  chunksReadFuel chunkSize data.length data

theorem chunksReadFuel_nil (k : Nat) : ∀ fuel, chunksReadFuel k fuel [] = [] := by
  intro fuel
  cases fuel <;> rfl

theorem chunksReadFuel_eq (k fuel : Nat) :
    ∀ data : List Nat, List.length data ≤ fuel →
      chunksReadFuel k fuel data = chunksRead k data := by
  induction fuel using Nat.strong_induction_on with
  | _ fuel ih =>
    intro data h
    cases fuel with
    | zero =>
        have hd : data = [] := List.eq_nil_of_length_eq_zero (Nat.le_zero.mp h)
        subst hd
        rfl
    | succ m =>
        cases data with
        | nil => rfl
        | cons b rest =>
            by_cases hk : k = 0
            · simp [chunksRead, chunksReadFuel, hk]
            · have hr : rest.length + 1 ≤ m + 1 := by simpa using h
              have h1 : List.length ((b :: rest).drop k) ≤ m := by
                simp only [List.length_drop, List.length_cons]
                omega
              have h2 : List.length ((b :: rest).drop k) ≤ rest.length := by
                simp only [List.length_drop, List.length_cons]
                omega
              show chunksReadFuel k (m + 1) (b :: rest)
                  = chunksReadFuel k (rest.length + 1) (b :: rest)
              simp only [chunksReadFuel, if_neg hk]
              rw [ih m (Nat.lt_succ_self m) _ h1, ih rest.length (by omega) _ h2]

/-- The unfolding equation of the read loop for a non-empty file and a
positive chunk size. -/
theorem chunksRead_cons (k : Nat) (hk : k ≠ 0) (b : Nat) (rest : List Nat) :
    chunksRead k (b :: rest) =
      (b :: rest).take k :: chunksRead k ((b :: rest).drop k) := by
  show chunksReadFuel k (rest.length + 1) (b :: rest) = _
  simp only [chunksReadFuel, if_neg hk]
  rw [chunksReadFuel_eq k rest.length _
    (by simp only [List.length_drop, List.length_cons]; omega)]

/-! ### MD5 (RFC 1321), embedding `hashlib.md5` -/

/-- The 64 MD5 sine-derived round constants. -/
def md5K : List Nat :=
  [0xd76aa478, 0xe8c7b756, 0x242070db, 0xc1bdceee,
   0xf57c0faf, 0x4787c62a, 0xa8304613, 0xfd469501,
   0x698098d8, 0x8b44f7af, 0xffff5bb1, 0x895cd7be,
   0x6b901122, 0xfd987193, 0xa679438e, 0x49b40821,
   0xf61e2562, 0xc040b340, 0x265e5a51, 0xe9b6c7aa,
   0xd62f105d, 0x02441453, 0xd8a1e681, 0xe7d3fbc8,
   0x21e1cde6, 0xc33707d6, 0xf4d50d87, 0x455a14ed,
   0xa9e3e905, 0xfcefa3f8, 0x676f02d9, 0x8d2a4c8a,
   0xfffa3942, 0x8771f681, 0x6d9d6122, 0xfde5380c,
   0xa4beea44, 0x4bdecfa9, 0xf6bb4b60, 0xbebfbc70,
   0x289b7ec6, 0xeaa127fa, 0xd4ef3085, 0x04881d05,
   0xd9d4d039, 0xe6db99e5, 0x1fa27cf8, 0xc4ac5665,
   0xf4292244, 0x432aff97, 0xab9423a7, 0xfc93a039,
   0x655b59c3, 0x8f0ccc92, 0xffeff47d, 0x85845dd1,
   0x6fa87e4f, 0xfe2ce6e0, 0xa3014314, 0x4e0811a1,
   0xf7537e82, 0xbd3af235, 0x2ad7d2bb, 0xeb86d391]

/-- The 64 per-round left-rotation amounts. -/
def md5S : List Nat :=
  [7, 12, 17, 22, 7, 12, 17, 22, 7, 12, 17, 22, 7, 12, 17, 22,
   5, 9, 14, 20, 5, 9, 14, 20, 5, 9, 14, 20, 5, 9, 14, 20,
   4, 11, 16, 23, 4, 11, 16, 23, 4, 11, 16, 23, 4, 11, 16, 23,
   6, 10, 15, 21, 6, 10, 15, 21, 6, 10, 15, 21, 6, 10, 15, 21]

/-- 32-bit left rotation. -/
def rotl32 (x n : Nat) : Nat :=
  ((x <<< n) % M32) ||| (x >>> (32 - n))

/-- The four MD5 chaining words. -/
structure MD5State where
  a : Nat
  b : Nat
  c : Nat
  d : Nat
deriving DecidableEq

/-- MD5 initialisation vector. -/
def md5Init : MD5State := ⟨0x67452301, 0xefcdab89, 0x98badcfe, 0x10325476⟩

/-- Round function `F` of round `i` (bitwise complement is xor against
the 32-bit all-ones mask). -/
def md5F (i b c d : Nat) : Nat :=
  if i < 16 then (b &&& c) ||| ((b ^^^ 0xffffffff) &&& d)
  else if i < 32 then (d &&& b) ||| ((d ^^^ 0xffffffff) &&& c)
  else if i < 48 then b ^^^ c ^^^ d
  else c ^^^ (b ||| (d ^^^ 0xffffffff))

/-- Message-word index of round `i`. -/
def md5g (i : Nat) : Nat :=
  if i < 16 then i
  else if i < 32 then (5 * i + 1) % 16
  else if i < 48 then (3 * i + 5) % 16
  else (7 * i) % 16

/-- One MD5 round over message words `M`. -/
def md5Round (M : List Nat) (st : MD5State) (i : Nat) : MD5State :=
  let f := (md5F i st.b st.c st.d + st.a + md5K.getD i 0 + M.getD (md5g i) 0) % M32
  ⟨st.d, (st.b + rotl32 f (md5S.getD i 0)) % M32, st.b, st.c⟩

/-- Compress one 64-byte block into the chaining state. -/
def md5ProcessBlock (st : MD5State) (block : List Nat) : MD5State :=
  let M := leWords4 block
  let r := (List.range 64).foldl (md5Round M) st
  ⟨(st.a + r.a) % M32, (st.b + r.b) % M32, (st.c + r.c) % M32, (st.d + r.d) % M32⟩

/-- MD5 padding: a `0x80` byte, zeros to 56 mod 64, then the bit length
as a 64-bit little-endian quantity. -/
def md5Pad (msg : List Nat) : List Nat :=
  let lenBits := (msg.length * 8) % (2 ^ 64)
  let padZeros := (120 - (msg.length + 1) % 64) % 64
  msg ++ 128 :: (List.replicate padZeros 0 ++ leBytes lenBits 8)

/-- The 16-byte MD5 digest of a byte string; embeds
`hashlib.md5(data).digest()`. -/
def md5 (msg : List Nat) : List Nat :=
  let final := (chunksRead 64 (md5Pad msg)).foldl md5ProcessBlock md5Init
  leBytes final.a 4 ++ leBytes final.b 4 ++ leBytes final.c 4 ++ leBytes final.d 4

/-- MD5 standard test vector: the empty message. -/
theorem md5_vector_empty : hexOfBytes (md5 []) = "d41d8cd98f00b204e9800998ecf8427e" := by
  decide

/-- MD5 standard test vector: the message `abc`. -/
theorem md5_vector_abc :
    hexOfBytes (md5 [97, 98, 99]) = "900150983cd24fb0d6963f7d28e17f72" := by
  decide

/-! ### `ERGO.calculate_s3_etag` -/

/-- Embedding of `ERGO.calculate_s3_etag(file_path, chunk_size,
force_chunked_output)`: read the file in `chunk_size` blocks, MD5 each
block; a single block without `force_chunked_output` gives the quoted
single-part digest, otherwise the quoted MD5 of the concatenated raw
block digests followed by a dash and the block count. -/
def calculate_s3_etag (file_bytes : List Nat) (chunk_size : Nat)
    (force_chunked_output : Bool) : String :=
  let md5s := (chunksRead chunk_size file_bytes).map md5
  if md5s.length = 1 ∧ force_chunked_output = false then
    "\"" ++ hexOfBytes (md5s.headD []) ++ "\""
  else
    let digests := md5s.flatten
    "\"" ++ hexOfBytes (md5 digests) ++ "-" ++ toString md5s.length ++ "\""

/-! ### `ERGO.checksum_file` -/

/-- The value of `smart_open.s3.DEFAULT_MIN_PART_SIZE` (a dependency
constant, 50 MiB), which `checksum_file` passes as the etag chunk
size. -/
def DEFAULT_MIN_PART_SIZE : Nat := 50 * 1024 * 1024

/-- The algorithm whitelist hard-coded in `checksum_file`. -/
def supported_algorithms : List String :=
  ["md5", "sha", "sha1", "md4", "md2", "mdc2", "sha224", "sha256", "sha384",
   "sha512", "etag"]

/-- The two local failures `checksum_file` can raise:
`NotImplementedError` for an unknown algorithm and `ValueError` for a
missing file. -/
inductive ChecksumError
  | unsupportedAlgorithm
  | fileNotFound
deriving DecidableEq

/-- The local filesystem, an association list from path to file bytes;
the first binding for a path wins, so writing is consing. -/
def FS : Type := List (String × List Nat)

instance : DecidableEq FS := by
  unfold FS
  infer_instance

/-- Contents at a path (`None` when no file exists there). -/
def FS.read (fs : FS) (name : String) : Option (List Nat) :=
  (fs.find? (fun e => e.1 == name)).map (fun e => e.2)

/-- Create or overwrite the file at `name`. -/
def FS.write (fs : FS) (name : String) (data : List Nat) : FS :=
  (name, data) :: fs

/-- Embedding of `os.rename old new` for an existing `old` (the only
way the client calls it after its own existence checks). -/
def FS.rename (fs : FS) (old new : String) : FS :=
  match FS.read fs old with
  | some d => (new, d) :: fs.filter (fun e => !(e.1 == old))
  | none => fs

/-- Embedding of `ERGO.checksum_file(filename, algorithm,
force_chunked_output)`.  The external `openssl <alg> <file>` digest of
the non-etag branch is an input `openssl_digest` (its output is
produced by a subprocess, outside this program).  Order of checks is
the source's: algorithm whitelist first, then file existence, then the
digest computation. -/
def checksum_file (openssl_digest : String → List Nat → String) (fs : FS)
    (filename : String) (algorithm : String) (force_chunked_output : Bool) :
    Except ChecksumError String :=
  if algorithm ∉ supported_algorithms then
    .error .unsupportedAlgorithm
  else
    match FS.read fs filename with
    | none => .error .fileNotFound
    | some data =>
        if algorithm = "etag" then
          .ok (calculate_s3_etag data DEFAULT_MIN_PART_SIZE force_chunked_output)
        else
          .ok (openssl_digest algorithm data)

/-! ### Claim-side formulation of the chunked etag

`spec_etag_chunked` is written from the words of the specification:
the chunks are the consecutive `partSize`-byte slices of the file, `n`
is the number of such (non-empty) slices, and the result is the quoted
hex MD5 of the concatenated raw chunk digests followed by `-n`. -/

def spec_chunk (partSize : Nat) (data : List Nat) (i : Nat) : List Nat :=
  (data.drop (i * partSize)).take partSize

def spec_num_chunks (partSize : Nat) (data : List Nat) : Nat :=
  (data.length + partSize - 1) / partSize

def spec_etag_chunked (partSize : Nat) (data : List Nat) : String :=
  let digests :=
    ((List.range (spec_num_chunks partSize data)).map
      (fun i => md5 (spec_chunk partSize data i))).flatten
  "\"" ++ hexOfBytes (md5 digests) ++ "-"
    ++ toString (spec_num_chunks partSize data) ++ "\""

/-- The read loop visits exactly the consecutive `k`-byte slices of
the file: slice `i` starts at offset `i * k`, and there are
`⌈length / k⌉` of them. -/
theorem chunksRead_eq_spec (k : Nat) (hk : 0 < k) :
    ∀ data : List Nat,
      chunksRead k data
        = (List.range (spec_num_chunks k data)).map (spec_chunk k data) := by
  have main : ∀ fuel : Nat, ∀ data : List Nat, data.length ≤ fuel →
      chunksRead k data
        = (List.range (spec_num_chunks k data)).map (spec_chunk k data) := by
    intro fuel
    induction fuel with
    | zero =>
        intro data h
        have hd : data = [] := List.eq_nil_of_length_eq_zero (Nat.le_zero.mp h)
        subst hd
        have hn : spec_num_chunks k [] = 0 := by
          simp only [spec_num_chunks, List.length_nil, Nat.zero_add]
          exact Nat.div_eq_of_lt (by omega)
        simp [chunksRead, chunksReadFuel, hn]
    | succ m ih =>
        intro data h
        cases data with
        | nil =>
            have hn : spec_num_chunks k [] = 0 := by
              simp only [spec_num_chunks, List.length_nil, Nat.zero_add]
              exact Nat.div_eq_of_lt (by omega)
            simp [chunksRead, chunksReadFuel, hn]
        | cons b rest =>
            have hk0 : k ≠ 0 := Nat.pos_iff_ne_zero.mp hk
            rw [chunksRead_cons k hk0 b rest]
            have hlen : (b :: rest).length = rest.length + 1 := by simp
            have hdroplen : List.length ((b :: rest).drop k) = rest.length + 1 - k := by
              simp [List.length_drop]
            have hrec := ih ((b :: rest).drop k) (by omega)
            rw [hrec]
            -- the chunk count splits off one leading chunk
            have hsucc : spec_num_chunks k (b :: rest)
                = spec_num_chunks k ((b :: rest).drop k) + 1 := by
              simp only [spec_num_chunks, hdroplen, hlen]
              by_cases hle : rest.length + 1 ≤ k
              · have h1 : rest.length + 1 - k = 0 := by omega
                rw [h1]
                have h2 : (0 + k - 1) / k = 0 := Nat.div_eq_of_lt (by omega)
                rw [h2]
                have h3 : rest.length + 1 + k - 1 = (rest.length) + k := by omega
                rw [h3, Nat.add_div_right _ hk]
                have h4 : rest.length / k = 0 := Nat.div_eq_of_lt (by omega)
                omega
              · have h1 : rest.length + 1 + k - 1 = (rest.length + 1 - k - 1) + k + k := by
                  omega
                have h2 : rest.length + 1 - k + k - 1 = (rest.length + 1 - k - 1) + k := by
                  omega
                rw [h1, h2, Nat.add_div_right _ hk, Nat.add_div_right _ hk]
            rw [hsucc, List.range_succ_eq_map, List.map_cons]
            congr 1
            · simp [spec_chunk]
            · rw [List.map_map]
              apply List.map_congr_left
              intro i _
              simp only [Function.comp_apply, spec_chunk, List.drop_drop, Nat.succ_mul]
              rw [Nat.add_comm k (i * k)]
  intro data
  exact main data.length data (Nat.le_refl _)

/-- A non-empty file no longer than the chunk size is read as the
single chunk equal to the whole file. -/
theorem chunksRead_single (k : Nat) (hk : 0 < k) (data : List Nat)
    (hne : data ≠ []) (hlen : data.length ≤ k) :
    chunksRead k data = [data] := by
  cases data with
  | nil => exact absurd rfl hne
  | cons b rest =>
      have hk0 : k ≠ 0 := Nat.pos_iff_ne_zero.mp hk
      rw [chunksRead_cons k hk0 b rest]
      have htake : (b :: rest).take k = b :: rest := List.take_of_length_le hlen
      have hdrop : (b :: rest).drop k = [] := List.drop_eq_nil_of_le hlen
      rw [htake, hdrop]
      rfl

/-! ### `sanitize_filename.sanitize`

Embedding of the `sanitize_filename` dependency (PyPI), which both
resolved names pass through.  The `unicodedata.normalize("NFKD", ...)`
step is omitted: it is the identity on the ASCII names this client
builds, and Unicode normalisation tables are outside the scope of this
embedding. -/

/-- Windows-illegal characters removed by the sanitizer. -/
def sanitize_blacklist : List Char :=
  ['\\', '/', ':', '*', '?', '"', '<', '>', '|', Char.ofNat 0]

/-- Windows reserved device names. -/
def sanitize_reserved : List String :=
  ["CON", "PRN", "AUX", "NUL", "COM1", "COM2", "COM3", "COM4", "COM5",
   "COM6", "COM7", "COM8", "COM9", "LPT1", "LPT2", "LPT3", "LPT4", "LPT5",
   "LPT6", "LPT7", "LPT8", "LPT9"]

/-- Python `str.rstrip(". ")`. -/
def rstripDotSpace (s : String) : String :=
  String.mk ((s.toList.reverse.dropWhile (fun c => c == '.' || c == ' ')).reverse)

/-- Python `str.strip()` on strings whose control characters (code
points below 32) have already been removed. -/
def stripSpaces (s : String) : String :=
  let ws := fun (c : Char) => c == ' '
  String.mk (((s.toList.dropWhile ws).reverse.dropWhile ws).reverse)

/-- The over-length branch of the sanitizer (only reached when the name
exceeds 255 characters; the path-separator split of the original is
the identity because separators were already removed). -/
def sanitize_truncate (f : String) : String :=
  let parts := f.splitOn "."
  if parts.length > 1 then
    let ext := "." ++ parts.getLastD ""
    let base := f.dropRight ext.length
    let base := if base = "" then "__" else base
    let ext := if ext.length > 254 then ext.drop 254 else ext
    let maxl := 255 - ext.length
    let g := base.take maxl ++ ext
    let g := rstripDotSpace g
    if g.length = 0 then "__" else g
  else
    let g := f.take 255
    let g := rstripDotSpace g
    if g.length = 0 then "__" else g

/-- Embedding of `sanitize_filename.sanitize`. -/
def sanitize (filename : String) : String :=
  let f := String.mk (filename.toList.filter (fun c => !(sanitize_blacklist.contains c)))
  let f := String.mk (f.toList.filter (fun c => 31 < c.toNat))
  let f := rstripDotSpace f
  let f := stripSpaces f
  let f := if f.toList.all (fun c => c == '.') then "__" ++ f else f
  let f := if sanitize_reserved.contains f then "__" ++ f else f
  let f := if f.length = 0 then "__" else f
  if f.length > 255 then sanitize_truncate f else f

/-! ### Data model -/

/-- The `type` object of a data element (`de['type']['extension']`). -/
structure DEType where
  extension : String
deriving DecidableEq

/-- The checksum record the server stores in
`de['metadata']['checksum']`. -/
structure ChecksumRecord where
  algorithm : String
  value : String
deriving DecidableEq

/-- The metadata fields `download_data_element` reads.  `sample_name`
and `orientation` are optional (`'x' in de['metadata']` checks);
the checksum record is taken as present, as every claim under study
assumes. -/
structure DEMetadata where
  sample_name : Option String
  orientation : Option String
  checksum : ChecksumRecord
deriving DecidableEq

/-- A remote data element as seen by the client. -/
structure DataElement where
  id : String
  name : String
  ty : DEType
  size : Nat
  metadata : DEMetadata
deriving DecidableEq

/-- The remote side of one `download_data_element` call: the element's
metadata, the HTTP status of the metadata request
(`GET user/data_elements/id`), and the status and body of the content
request (`GET user/data_elements/id/download`). -/
structure RemoteEnv where
  element : DataElement
  metaStatus : Nat
  contentStatus : Nat
  content : List Nat
deriving DecidableEq

/-! ### Naming (`download_data_element` lines 499-520) -/

/-- The sanitized id-based name `"{id}.{extension}"`, always used as
the initial local path. -/
def local_name_of (de : DataElement) : String :=
  sanitize (de.id ++ "." ++ de.ty.extension)

/-- Resolution of the final local name under a rename strategy.
Returns the sanitized name together with a flag recording whether the
missing-sample-name warning was written to stderr; an unsupported
orientation value raises `NotImplementedError`, returned as `.error`
carrying the offending value. -/
def resolve_new_name (de : DataElement) (rename : String) :
    Except String (String × Bool) :=
  if rename = "ergo_name" then
    .ok (sanitize de.name, false)
  else if rename = "sample_name" then
    match de.metadata.sample_name with
    | none => .ok (sanitize de.name, true)
    | some sn =>
        match de.metadata.orientation with
        | none => .ok (sanitize (sn ++ "." ++ de.ty.extension), false)
        | some o =>
            if o = "forward" then
              .ok (sanitize (sn ++ "_R1" ++ "." ++ de.ty.extension), false)
            else if o = "reverse" then
              .ok (sanitize (sn ++ "_R2" ++ "." ++ de.ty.extension), false)
            else
              .error o
  else
    .ok (local_name_of de, false)

/-! ### `ERGO.download_data_element` -/

/-- How one `download_data_element` call ends.  `skipped` and
`completed` are normal returns; the others model the exceptional exits:
`remoteError` the `RuntimeError` raised by `get_data_element` on a
non-200 metadata response, `orientationError` the
`NotImplementedError`, `checksumError` an exception raised by
`checksum_file` during the skip check, `nameCollision` the
`sys.exit(1)` of the rename collision, and `renameError` the `OSError`
of `os.rename` on a missing source. -/
inductive DLOutcome
  | skipped
  | completed
  | remoteError
  | orientationError (o : String)
  | checksumError (e : ChecksumError)
  | nameCollision
  | renameError
deriving DecidableEq

/-- Result of one download call: how it ended, the filesystem
afterwards, and the total bytes written to disk. -/
structure DLResult where
  outcome : DLOutcome
  fs : FS
  bytesWritten : Nat
deriving DecidableEq

/-- The `os.path.exists` / checksum-comparison block (lines 522-529):
`some r` when the call returns or raises there, `none` when it falls
through to the content request. -/
def skip_check (openssl_digest : String → List Nat → String) (env : RemoteEnv)
    (fs : FS) (ln : String) : Option DLResult :=
  match FS.read fs ln with
  | none => none
  | some _ =>
      match checksum_file openssl_digest fs ln
          env.element.metadata.checksum.algorithm true with
      | .error e => some ⟨.checksumError e, fs, 0⟩
      | .ok c =>
          if c = env.element.metadata.checksum.value then
            some ⟨.skipped, fs, 0⟩
          else
            none

/-- The content request, streamed write and post-download rename
(lines 530-543).  A 200 content response streams the body to the
id-based path `ln` (cumulative bytes written equal the body length); a
non-200 response writes nothing and raises nothing.  When the resolved
name differs, an existing file there causes the `sys.exit(1)` name
collision, otherwise `os.rename` moves the file (raising `OSError` if
no file exists at `ln`). -/
def stream_and_rename (env : RemoteEnv) (ln nn : String) (fs : FS) : DLResult :=
  let st :=
    if env.contentStatus = 200 then (FS.write fs ln env.content, env.content.length)
    else (fs, 0)
  if nn ≠ ln then
    if (FS.read st.1 nn).isSome then ⟨.nameCollision, st.1, st.2⟩
    else
      match FS.read st.1 ln with
      | some _ => ⟨.completed, FS.rename st.1 ln nn, st.2⟩
      | none => ⟨.renameError, st.1, st.2⟩
  else ⟨.completed, st.1, st.2⟩

/-- Embedding of `ERGO.download_data_element(did, rename)` acting on a
local filesystem `fs`. -/
def download_data_element (openssl_digest : String → List Nat → String)
    (env : RemoteEnv) (rename : String) (fs : FS) : DLResult :=
  if env.metaStatus ≠ 200 then ⟨.remoteError, fs, 0⟩
  else
    match resolve_new_name env.element rename with
    | .error o => ⟨.orientationError o, fs, 0⟩
    | .ok (nn, _warned) =>
        let ln := local_name_of env.element
        match skip_check openssl_digest env fs ln with
        | some r => r
        | none => stream_and_rename env ln nn fs

/-! ### `ERGO.project_download` -/

/-- Outcomes that are Python exceptions or `sys.exit`: they escape the
`for` loop of `project_download` and end the process. -/
def fatal : DLOutcome → Bool
  | .skipped => false
  | .completed => false
  | _ => true

/-- Embedding of `ERGO.project_download`: process the project's data
elements in order (those passing the extension filter when the filter
list is non-empty); a fatal outcome aborts the loop.  Returns the
final filesystem, the outcomes of the elements actually processed, and
whether the batch was aborted. -/
def project_download (openssl_digest : String → List Nat → String)
    (filt : List String) (rename : String) :
    List RemoteEnv → FS → FS × List DLOutcome × Bool
  | [], fs => (fs, [], false)
  | e :: rest, fs =>
      if filt ≠ [] ∧ e.element.ty.extension ∉ filt then
        project_download openssl_digest filt rename rest fs
      else
        let r := download_data_element openssl_digest e rename fs
        if fatal r.outcome then (r.fs, [r.outcome], true)
        else
          let rec_ := project_download openssl_digest filt rename rest r.fs
          (rec_.1, r.outcome :: rec_.2.1, rec_.2.2)

deriving instance DecidableEq for Except

/-! ### Shared facts about the filesystem model -/

theorem FS.read_write_self (fs : FS) (name : String) (data : List Nat) :
    FS.read (FS.write fs name data) name = some data := by
  unfold FS.read FS.write
  rw [List.find?_cons_of_pos _ (by simp)]
  rfl

theorem FS.read_write_ne (fs : FS) (name name' : String) (data : List Nat)
    (h : name' ≠ name) :
    FS.read (FS.write fs name data) name' = FS.read fs name' := by
  unfold FS.read FS.write
  rw [List.find?_cons_of_neg _ (by simp only [beq_iff_eq]; exact fun hc => h hc.symm)]

theorem download_meta_fail (oss : String → List Nat → String) (env : RemoteEnv)
    (rename : String) (fs : FS) (h : env.metaStatus ≠ 200) :
    download_data_element oss env rename fs = ⟨.remoteError, fs, 0⟩ := by
  unfold download_data_element
  rw [if_pos h]

theorem skip_check_cases (oss : String → List Nat → String) (env : RemoteEnv)
    (fs : FS) (ln : String) (r : DLResult) (h : skip_check oss env fs ln = some r) :
    r = ⟨.skipped, fs, 0⟩ ∨ ∃ e, r = ⟨.checksumError e, fs, 0⟩ := by
  unfold skip_check at h
  split at h
  · exact absurd h (by simp)
  · split at h
    · cases h
      exact Or.inr ⟨_, rfl⟩
    · split at h
      · cases h
        exact Or.inl rfl
      · exact absurd h (by simp)

/-! ### Claim C1 -/

/-- C1.  For every file, `checksum(path, "etag", forceChunkedOutput =
true)` returns the quoted hex MD5 of the concatenated raw per-chunk
MD5 digests, a dash, and the chunk count, where the chunks are the
consecutive blocks of the configured part size
(`DEFAULT_MIN_PART_SIZE`) and the count is the number of non-empty
chunks. -/
theorem claim_c1_etag_force_chunked (oss : String → List Nat → String)
    (fs : FS) (path : String) (data : List Nat)
    (h : FS.read fs path = some data) :
    checksum_file oss fs path "etag" true
      = .ok (spec_etag_chunked DEFAULT_MIN_PART_SIZE data) := by
  unfold checksum_file
  rw [if_neg (by simp [supported_algorithms]), h]
  show Except.ok (calculate_s3_etag data DEFAULT_MIN_PART_SIZE true)
      = Except.ok (spec_etag_chunked DEFAULT_MIN_PART_SIZE data)
  congr 1
  unfold calculate_s3_etag spec_etag_chunked
  rw [chunksRead_eq_spec DEFAULT_MIN_PART_SIZE (by decide) data]
  rw [if_neg (by simp)]
  simp only [List.map_map, List.length_map, List.length_range, Function.comp_def]

/-- C1 witness: a one-byte file evaluated through the theorem. -/
theorem claim_c1_witness :
    FS.read [("f.bin", [97])] "f.bin" = some [97]
    ∧ checksum_file (fun _ _ => "") [("f.bin", [97])] "f.bin" "etag" true
        = .ok (spec_etag_chunked DEFAULT_MIN_PART_SIZE [97]) :=
  ⟨rfl, claim_c1_etag_force_chunked (fun _ _ => "") [("f.bin", [97])] "f.bin" [97] rfl⟩

/-! ### Claim C4 -/

/-- C4 counterexample.  The claim also asserts that for all files under
8 MiB the result equals the quoted hex MD5 of the whole file; the
empty file refutes it: it is read as zero chunks, so even with
`forceChunkedOutput = false` the result is the chunked form with count
0, not the quoted whole-file digest. -/
theorem claim_c4_counterexample :
    checksum_file (fun _ _ => "") [("empty.bin", [])] "empty.bin" "etag" false
        = .ok "\"d41d8cd98f00b204e9800998ecf8427e-0\""
    ∧ "\"d41d8cd98f00b204e9800998ecf8427e-0\""
        ≠ "\"" ++ hexOfBytes (md5 []) ++ "\"" := by
  constructor
  · decide
  · decide

/-- C4 (amended).  For every file that is read as exactly one chunk at
the configured part size — equivalently every NON-EMPTY file of at
most `DEFAULT_MIN_PART_SIZE` bytes, which covers all non-empty files
under 8 MiB — `checksum(path, "etag", forceChunkedOutput = false)`
returns the quoted single-part form: the hex MD5 of that chunk, which
is the MD5 of the whole file, with no dash-count suffix.  (The empty
file is read as zero chunks and instead yields the chunked form with
count 0.) -/
theorem claim_c4_single_chunk (oss : String → List Nat → String)
    (fs : FS) (path : String) (data : List Nat)
    (h : FS.read fs path = some data) (hne : data ≠ [])
    (hlen : data.length ≤ DEFAULT_MIN_PART_SIZE) :
    checksum_file oss fs path "etag" false
      = .ok ("\"" ++ hexOfBytes (md5 data) ++ "\"") := by
  unfold checksum_file
  rw [if_neg (by simp [supported_algorithms]), h]
  show Except.ok (calculate_s3_etag data DEFAULT_MIN_PART_SIZE false)
      = Except.ok ("\"" ++ hexOfBytes (md5 data) ++ "\"")
  congr 1
  unfold calculate_s3_etag
  rw [chunksRead_single DEFAULT_MIN_PART_SIZE (by decide) data hne hlen]
  rfl

/-- C4 witness: a one-byte file evaluated through the amended
theorem. -/
theorem claim_c4_witness :
    FS.read [("one.bin", [97])] "one.bin" = some [97]
    ∧ ([97] : List Nat) ≠ []
    ∧ ([97] : List Nat).length ≤ DEFAULT_MIN_PART_SIZE
    ∧ checksum_file (fun _ _ => "") [("one.bin", [97])] "one.bin" "etag" false
        = .ok ("\"" ++ hexOfBytes (md5 [97]) ++ "\"") :=
  ⟨rfl, by decide, by decide,
    claim_c4_single_chunk (fun _ _ => "") [("one.bin", [97])] "one.bin" [97]
      rfl (by decide) (by decide)⟩

/-! ### Claim C8 -/

/-- C8.  `checksum_file` fails with `UnsupportedAlgorithm` exactly when
the algorithm is outside the enumerated whitelist (the check applies
whether or not the file exists), and for a supported algorithm it
fails with `FileNotFound` when no file exists at the path. -/
theorem claim_c8_checksum_errors (oss : String → List Nat → String)
    (fs : FS) (filename algorithm : String) (force : Bool) :
    (checksum_file oss fs filename algorithm force
        = .error .unsupportedAlgorithm ↔ algorithm ∉ supported_algorithms)
    ∧ (algorithm ∈ supported_algorithms → FS.read fs filename = none →
        checksum_file oss fs filename algorithm force = .error .fileNotFound) := by
  constructor
  · constructor
    · intro h
      by_contra hmem
      unfold checksum_file at h
      rw [if_neg (not_not_intro hmem)] at h
      cases hr : FS.read fs filename with
      | none =>
          rw [hr] at h
          exact ChecksumError.noConfusion (Except.error.inj h)
      | some data =>
          rw [hr] at h
          split at h
          · exact ChecksumError.noConfusion (Except.error.inj h)
          · split at h <;> exact Except.noConfusion h
    · intro hnot
      unfold checksum_file
      rw [if_pos hnot]
  · intro hmem hread
    unfold checksum_file
    rw [if_neg (not_not_intro hmem), hread]

/-- C8 witness: an unsupported algorithm is rejected with the file
present, and a supported algorithm on a missing file reports
`FileNotFound`. -/
theorem claim_c8_witness :
    checksum_file (fun _ _ => "") [("f.bin", [1])] "f.bin" "crc32" false
        = .error .unsupportedAlgorithm
    ∧ checksum_file (fun _ _ => "") [] "gone.bin" "md5" false
        = .error .fileNotFound :=
  ⟨(claim_c8_checksum_errors (fun _ _ => "") [("f.bin", [1])] "f.bin" "crc32"
      false).1.mpr (by decide),
   (claim_c8_checksum_errors (fun _ _ => "") [] "gone.bin" "md5" false).2
      (by decide) rfl⟩

/-! ### Claim C6 -/

/-- A data element whose sample name contains a path separator, used to
refute the unsanitized naming formula of C6. -/
def deC6 : DataElement :=
  ⟨"id6", "name6", ⟨"fastq.gz"⟩, 4, ⟨some "a/b", some "forward", ⟨"etag", "v"⟩⟩⟩

/-- C6 counterexample.  The claim asserts the resolved name is exactly
`sample_name + "_R1" + "." + extension`; but every resolved name passes
through the filename sanitizer, so a sample name containing a
filesystem-illegal character (here `/`) yields a different string. -/
theorem claim_c6_counterexample :
    resolve_new_name deC6 "sample_name" = .ok ("ab_R1.fastq.gz", false)
    ∧ "ab_R1.fastq.gz" ≠ "a/b" ++ "_R1" ++ "." ++ "fastq.gz" := by
  constructor
  · decide
  · decide

/-- C6 (amended).  Under the by-sample-name strategy with
`sample_name` present, the resolved name is the SANITIZED form
`sanitize(sample_name + "_R1" + "." + extension)` when the orientation
is `"forward"`, `sanitize(... "_R2" ...)` when `"reverse"`, and any
other present orientation value fails with `UnsupportedOrientation`
(`NotImplementedError`); for names free of characters the sanitizer
alters, this is `sample_name + "_R1"/"_R2" + "." + extension`, e.g.
sample `X`, orientation `forward`, extension `fastq.gz` resolves to
`X_R1.fastq.gz`. -/
theorem claim_c6_sample_name_orientation :
    (∀ (de : DataElement) (sn : String),
        de.metadata.sample_name = some sn →
        de.metadata.orientation = some "forward" →
        resolve_new_name de "sample_name"
          = .ok (sanitize (sn ++ "_R1" ++ "." ++ de.ty.extension), false))
    ∧ (∀ (de : DataElement) (sn : String),
        de.metadata.sample_name = some sn →
        de.metadata.orientation = some "reverse" →
        resolve_new_name de "sample_name"
          = .ok (sanitize (sn ++ "_R2" ++ "." ++ de.ty.extension), false))
    ∧ (∀ (de : DataElement) (sn o : String),
        de.metadata.sample_name = some sn →
        de.metadata.orientation = some o →
        o ≠ "forward" → o ≠ "reverse" →
        resolve_new_name de "sample_name" = .error o)
    ∧ resolve_new_name
        ⟨"idX", "nX", ⟨"fastq.gz"⟩, 4, ⟨some "X", some "forward", ⟨"etag", "v"⟩⟩⟩
        "sample_name"
        = .ok ("X_R1.fastq.gz", false) := by
  refine ⟨?_, ?_, ?_, ?_⟩
  · intro de sn hsn hor
    unfold resolve_new_name
    rw [if_neg (by decide), if_pos rfl, hsn, hor]
    rfl
  · intro de sn hsn hor
    unfold resolve_new_name
    rw [if_neg (by decide), if_pos rfl, hsn, hor]
    rfl
  · intro de sn o hsn hor h1 h2
    unfold resolve_new_name
    rw [if_neg (by decide), if_pos rfl, hsn, hor]
    show (if o = "forward"
        then Except.ok (sanitize (sn ++ "_R1" ++ "." ++ de.ty.extension), false)
        else if o = "reverse"
        then Except.ok (sanitize (sn ++ "_R2" ++ "." ++ de.ty.extension), false)
        else Except.error o)
      = Except.error o
    rw [if_neg h1, if_neg h2]
  · decide

/-- C6 witness: the reverse-orientation clause of the amended theorem
evaluated on a concrete element. -/
theorem claim_c6_witness :
    resolve_new_name
        ⟨"idS", "nS", ⟨"fastq.gz"⟩, 4, ⟨some "S", some "reverse", ⟨"etag", "v"⟩⟩⟩
        "sample_name"
      = .ok (sanitize ("S" ++ "_R2" ++ "." ++ "fastq.gz"), false) :=
  claim_c6_sample_name_orientation.2.1
    ⟨"idS", "nS", ⟨"fastq.gz"⟩, 4, ⟨some "S", some "reverse", ⟨"etag", "v"⟩⟩⟩
    "S" rfl rfl

/-! ### Claim C7 -/

/-- C7.  Under the by-sample-name strategy, an element without
`sample_name` does not raise: it resolves to the by-remote-name result
(the sanitized `name` field, exactly what the `ergo_name` strategy
yields) and the missing-sample-name warning is emitted. -/
theorem claim_c7_sample_name_fallback :
    (∀ de : DataElement, de.metadata.sample_name = none →
        resolve_new_name de "sample_name" = .ok (sanitize de.name, true))
    ∧ (∀ de : DataElement,
        resolve_new_name de "ergo_name" = .ok (sanitize de.name, false)) := by
  constructor
  · intro de h
    unfold resolve_new_name
    rw [if_neg (by decide), if_pos rfl, h]
  · intro de
    unfold resolve_new_name
    rw [if_pos rfl]

/-- C7 witness: a concrete element without a sample name evaluated
through the theorem. -/
theorem claim_c7_witness :
    resolve_new_name
        ⟨"id7", "remote.txt", ⟨"txt"⟩, 1, ⟨none, some "forward", ⟨"etag", "v"⟩⟩⟩
        "sample_name"
      = .ok (sanitize "remote.txt", true) :=
  claim_c7_sample_name_fallback.1
    ⟨"id7", "remote.txt", ⟨"txt"⟩, 1, ⟨none, some "forward", ⟨"etag", "v"⟩⟩⟩ rfl

/-! ### Unfolding lemmas for `download_data_element` -/

theorem download_unfold_err (oss : String → List Nat → String) (env : RemoteEnv)
    (rename : String) (fs : FS) (o : String)
    (h200 : env.metaStatus = 200)
    (hres : resolve_new_name env.element rename = .error o) :
    download_data_element oss env rename fs = ⟨.orientationError o, fs, 0⟩ := by
  unfold download_data_element
  rw [if_neg (by simp [h200]), hres]

theorem download_unfold_ok (oss : String → List Nat → String) (env : RemoteEnv)
    (rename : String) (fs : FS) (nn : String) (w : Bool)
    (h200 : env.metaStatus = 200)
    (hres : resolve_new_name env.element rename = .ok (nn, w)) :
    download_data_element oss env rename fs
      = (match skip_check oss env fs (local_name_of env.element) with
         | some r => r
         | none => stream_and_rename env (local_name_of env.element) nn fs) := by
  unfold download_data_element
  rw [if_neg (by simp [h200]), hres]

theorem skip_check_skips (oss : String → List Nat → String) (env : RemoteEnv)
    (fs : FS) (ln : String) (d : List Nat)
    (hread : FS.read fs ln = some d)
    (hmatch : checksum_file oss fs ln env.element.metadata.checksum.algorithm true
        = .ok env.element.metadata.checksum.value) :
    skip_check oss env fs ln = some ⟨.skipped, fs, 0⟩ := by
  unfold skip_check
  rw [hread]
  show (match checksum_file oss fs ln env.element.metadata.checksum.algorithm true with
      | .error e => some (⟨.checksumError e, fs, 0⟩ : DLResult)
      | .ok c =>
          if c = env.element.metadata.checksum.value then
            some (⟨.skipped, fs, 0⟩ : DLResult)
          else none)
    = some (⟨.skipped, fs, 0⟩ : DLResult)
  rw [hmatch]
  show (if env.element.metadata.checksum.value = env.element.metadata.checksum.value
      then some (⟨.skipped, fs, 0⟩ : DLResult) else none)
    = some (⟨.skipped, fs, 0⟩ : DLResult)
  rw [if_pos rfl]

theorem stream_no_content (env : RemoteEnv) (ln nn : String) (fs : FS)
    (hcs : env.contentStatus ≠ 200) :
    stream_and_rename env ln nn fs
      = (if nn ≠ ln then
          (if (FS.read fs nn).isSome then ⟨.nameCollision, fs, 0⟩
           else
             match FS.read fs ln with
             | some _ => ⟨.completed, FS.rename fs ln nn, 0⟩
             | none => ⟨.renameError, fs, 0⟩)
         else ⟨.completed, fs, 0⟩) := by
  unfold stream_and_rename
  rw [if_neg hcs]

theorem stream_content (env : RemoteEnv) (ln nn : String) (fs : FS)
    (hcs : env.contentStatus = 200) :
    stream_and_rename env ln nn fs
      = (if nn ≠ ln then
          (if (FS.read (FS.write fs ln env.content) nn).isSome then
            ⟨.nameCollision, FS.write fs ln env.content, env.content.length⟩
           else
             match FS.read (FS.write fs ln env.content) ln with
             | some _ =>
                 ⟨.completed, FS.rename (FS.write fs ln env.content) ln nn,
                   env.content.length⟩
             | none => ⟨.renameError, FS.write fs ln env.content, env.content.length⟩)
         else ⟨.completed, FS.write fs ln env.content, env.content.length⟩) := by
  unfold stream_and_rename
  rw [if_pos hcs]

/-! ### Claim C2 -/

/-- C2.  Downloading the same data element twice against an unchanged
remote: whenever, after the first call (which completed or skipped),
the local file at the candidate path carries the checksum recorded in
the remote metadata (computed with `forceChunkedOutput = true` and the
recorded algorithm), the second call returns `Skipped`, leaves the
filesystem untouched, and writes zero bytes. -/
theorem claim_c2_second_download_skips (oss : String → List Nat → String)
    (env : RemoteEnv) (rename : String) (fs₀ : FS) (d : List Nat)
    (h200 : env.metaStatus = 200)
    (hfirst : (download_data_element oss env rename fs₀).outcome = .skipped
      ∨ (download_data_element oss env rename fs₀).outcome = .completed)
    (hread : FS.read (download_data_element oss env rename fs₀).fs
        (local_name_of env.element) = some d)
    (hmatch : checksum_file oss (download_data_element oss env rename fs₀).fs
        (local_name_of env.element) env.element.metadata.checksum.algorithm true
      = .ok env.element.metadata.checksum.value) :
    download_data_element oss env rename (download_data_element oss env rename fs₀).fs
      = ⟨.skipped, (download_data_element oss env rename fs₀).fs, 0⟩ := by
  cases hres : resolve_new_name env.element rename with
  | error o =>
      exfalso
      have hval := download_unfold_err oss env rename fs₀ o h200 hres
      rcases hfirst with h | h <;> rw [hval] at h <;> exact DLOutcome.noConfusion h
  | ok p =>
      obtain ⟨nn, w⟩ := p
      have hsc := skip_check_skips oss env
        (download_data_element oss env rename fs₀).fs
        (local_name_of env.element) d hread hmatch
      rw [download_unfold_ok oss env rename _ nn w h200 hres, hsc]

/-- The remote environment of the C2 witness: a one-byte artifact whose
recorded checksum is the forced-chunked etag of its content. -/
def envC2 : RemoteEnv :=
  ⟨⟨"e2", "e2.bin", ⟨"bin"⟩, 1,
     ⟨none, none, ⟨"etag", calculate_s3_etag [97] DEFAULT_MIN_PART_SIZE true⟩⟩⟩,
   200, 200, [97]⟩

/-- C2 witness: first call downloads the byte, second call is applied
through the theorem and skips with zero bytes written. -/
theorem claim_c2_witness :
    (download_data_element (fun _ _ => "") envC2 "ergo_id" []).outcome = .completed
    ∧ FS.read (download_data_element (fun _ _ => "") envC2 "ergo_id" []).fs
        (local_name_of envC2.element) = some [97]
    ∧ download_data_element (fun _ _ => "") envC2 "ergo_id"
        (download_data_element (fun _ _ => "") envC2 "ergo_id" []).fs
      = ⟨.skipped, (download_data_element (fun _ _ => "") envC2 "ergo_id" []).fs, 0⟩ :=
  ⟨rfl, rfl,
    claim_c2_second_download_skips (fun _ _ => "") envC2 "ergo_id" [] [97]
      rfl (Or.inr rfl) rfl rfl⟩

/-! ### Claim C3 -/

/-- The remote environment of the C3 counterexample: healthy metadata
request, content request answering 404. -/
def envC3 : RemoteEnv :=
  ⟨⟨"e3", "e3.bin", ⟨"bin"⟩, 3, ⟨none, none, ⟨"etag", "v"⟩⟩⟩, 200, 404, [1, 2, 3]⟩

/-- C3 counterexample.  A download whose content request returns 404
does NOT surface any error: the call returns normally (`completed`)
with nothing written — the non-200 content response is silently
swallowed, contradicting the claim that a `RemoteError` is surfaced. -/
theorem claim_c3_counterexample :
    envC3.contentStatus = 404
    ∧ download_data_element (fun _ _ => "") envC3 "ergo_id" [] = ⟨.completed, [], 0⟩
    ∧ DLOutcome.completed ≠ DLOutcome.remoteError := by
  refine ⟨rfl, by decide, by decide⟩

/-- C3 (amended).  A non-200 response to the METADATA request is
surfaced (the call raises, reporting status and body, and aborts the
item); but a non-200 response to the CONTENT request is silently
swallowed: no bytes are written, no `RemoteError` is raised, and the
call proceeds to the rename logic. -/
theorem claim_c3_content_error_swallowed :
    (∀ (oss : String → List Nat → String) (env : RemoteEnv) (rename : String)
        (fs : FS), env.metaStatus ≠ 200 →
        download_data_element oss env rename fs = ⟨.remoteError, fs, 0⟩)
    ∧ (∀ (oss : String → List Nat → String) (env : RemoteEnv) (rename : String)
        (fs : FS), env.metaStatus = 200 → env.contentStatus ≠ 200 →
        (download_data_element oss env rename fs).bytesWritten = 0
        ∧ (download_data_element oss env rename fs).outcome ≠ .remoteError) := by
  constructor
  · intro oss env rename fs h
    exact download_meta_fail oss env rename fs h
  · intro oss env rename fs h200 hcs
    cases hres : resolve_new_name env.element rename with
    | error o =>
        rw [download_unfold_err oss env rename fs o h200 hres]
        exact ⟨rfl, fun hc => DLOutcome.noConfusion hc⟩
    | ok p =>
        obtain ⟨nn, w⟩ := p
        rw [download_unfold_ok oss env rename fs nn w h200 hres]
        cases hsc : skip_check oss env fs (local_name_of env.element) with
        | some r =>
            show r.bytesWritten = 0 ∧ r.outcome ≠ .remoteError
            rcases skip_check_cases oss env fs _ r hsc with h | ⟨e, h⟩ <;> subst h
            · exact ⟨rfl, fun hc => DLOutcome.noConfusion hc⟩
            · exact ⟨rfl, fun hc => DLOutcome.noConfusion hc⟩
        | none =>
            show (stream_and_rename env (local_name_of env.element) nn fs).bytesWritten = 0
              ∧ (stream_and_rename env (local_name_of env.element) nn fs).outcome
                  ≠ .remoteError
            rw [stream_no_content env (local_name_of env.element) nn fs hcs]
            split
            · split
              · exact ⟨rfl, fun hc => DLOutcome.noConfusion hc⟩
              · split
                · exact ⟨rfl, fun hc => DLOutcome.noConfusion hc⟩
                · exact ⟨rfl, fun hc => DLOutcome.noConfusion hc⟩
            · exact ⟨rfl, fun hc => DLOutcome.noConfusion hc⟩

/-- C3 witness: a metadata request answering 500 surfaces the error,
through the first clause of the amended theorem. -/
theorem claim_c3_witness :
    (⟨⟨"e3w", "n", ⟨"bin"⟩, 0, ⟨none, none, ⟨"etag", "v"⟩⟩⟩, 500, 200, []⟩
        : RemoteEnv).metaStatus ≠ 200
    ∧ download_data_element (fun _ _ => "")
        ⟨⟨"e3w", "n", ⟨"bin"⟩, 0, ⟨none, none, ⟨"etag", "v"⟩⟩⟩, 500, 200, []⟩
        "ergo_name" []
      = ⟨.remoteError, [], 0⟩ :=
  ⟨by decide,
    claim_c3_content_error_swallowed.1 (fun _ _ => "")
      ⟨⟨"e3w", "n", ⟨"bin"⟩, 0, ⟨none, none, ⟨"etag", "v"⟩⟩⟩, 500, 200, []⟩
      "ergo_name" [] (by decide)⟩

/-! ### Claim C5 -/

/-- Unfolding equation of the batch loop on a non-empty project. -/
theorem project_download_cons (oss : String → List Nat → String)
    (filt : List String) (rename : String) (e : RemoteEnv)
    (rest : List RemoteEnv) (fs : FS) :
    project_download oss filt rename (e :: rest) fs
      = (if filt ≠ [] ∧ e.element.ty.extension ∉ filt then
          project_download oss filt rename rest fs
        else
          let r := download_data_element oss e rename fs
          if fatal r.outcome then (r.fs, [r.outcome], true)
          else
            let rec_ := project_download oss filt rename rest r.fs
            (rec_.1, r.outcome :: rec_.2.1, rec_.2.2)) := rfl

/-- C5.  When the resolved final name differs from the id-based
temporary name and a file already exists at the resolved name (and the
call was not skipped by the checksum check), the download ends in the
name collision `sys.exit(1)`; in a batch this stops the whole process
immediately: no element after the colliding one is processed. -/
theorem claim_c5_collision_stops_process (oss : String → List Nat → String)
    (env : RemoteEnv) (rename nn : String) (w : Bool) (fs₀ : FS)
    (rest : List RemoteEnv)
    (h200 : env.metaStatus = 200)
    (hres : resolve_new_name env.element rename = .ok (nn, w))
    (hne : nn ≠ local_name_of env.element)
    (hex : (FS.read fs₀ nn).isSome)
    (hskip : skip_check oss env fs₀ (local_name_of env.element) = none) :
    (download_data_element oss env rename fs₀).outcome = .nameCollision
    ∧ project_download oss [] rename (env :: rest) fs₀
        = ((download_data_element oss env rename fs₀).fs, [.nameCollision], true) := by
  have hdl : download_data_element oss env rename fs₀
      = stream_and_rename env (local_name_of env.element) nn fs₀ := by
    rw [download_unfold_ok oss env rename fs₀ nn w h200 hres, hskip]
  have hout : (stream_and_rename env (local_name_of env.element) nn fs₀).outcome
      = .nameCollision := by
    by_cases hcs : env.contentStatus = 200
    · have hex' : (FS.read
          (FS.write fs₀ (local_name_of env.element) env.content) nn).isSome := by
        rw [FS.read_write_ne fs₀ (local_name_of env.element) nn env.content hne]
        exact hex
      rw [stream_content env (local_name_of env.element) nn fs₀ hcs,
        if_pos hne, if_pos hex']
    · rw [stream_no_content env (local_name_of env.element) nn fs₀ hcs,
        if_pos hne, if_pos hex]
  have ho : (download_data_element oss env rename fs₀).outcome = .nameCollision := by
    rw [hdl]
    exact hout
  refine ⟨ho, ?_⟩
  rw [project_download_cons, if_neg (by simp)]
  simp only [ho, fatal, if_true]

/-- Concrete colliding element for the C5 witness: its remote name
resolves to `taken.txt`, which already exists locally. -/
def envC5 : RemoteEnv :=
  ⟨⟨"e5", "taken.txt", ⟨"txt"⟩, 1, ⟨none, none, ⟨"etag", "v"⟩⟩⟩, 200, 200, [7]⟩

/-- Second batch element for the C5 witness (never reached). -/
def envC5b : RemoteEnv :=
  ⟨⟨"e5b", "other.txt", ⟨"txt"⟩, 1, ⟨none, none, ⟨"etag", "v"⟩⟩⟩, 200, 200, [8]⟩

/-- C5 witness: the collision and the aborted two-element batch,
through the theorem. -/
theorem claim_c5_witness :
    (download_data_element (fun _ _ => "") envC5 "ergo_name"
        [("taken.txt", [5])]).outcome = .nameCollision
    ∧ project_download (fun _ _ => "") [] "ergo_name" [envC5, envC5b]
        [("taken.txt", [5])]
      = ((download_data_element (fun _ _ => "") envC5 "ergo_name"
            [("taken.txt", [5])]).fs, [.nameCollision], true) :=
  claim_c5_collision_stops_process (fun _ _ => "") envC5 "ergo_name" "taken.txt"
    false [("taken.txt", [5])] [envC5b] rfl (by decide) (by decide) (by decide)
    (by decide)

/-! ### Claim C10 -/

/-- C10.  Both the exists-then-verify skip check and the streamed write
address the sanitized id-based name, whatever the rename strategy, and
the collision check protects only the resolved name.  Three facts:
(i) with no file at the id-based path the content is transferred even
when a file at the RESOLVED name matches the remote checksum — a
previously renamed download is never recognised by the skip check;
(ii) an existing file at the id-based path whose checksum does not
match is overwritten with no error and no collision check (under the
id strategy the call completes normally);
(iii) under a renaming strategy the write still lands at the id-based
path and is then renamed; the prior existence of the id-based file
never triggers the collision, which depends only on the resolved
name. -/
theorem claim_c10_id_based_paths :
    (∀ (oss : String → List Nat → String) (env : RemoteEnv) (rename nn : String)
        (w : Bool) (fs : FS) (d : List Nat),
      env.metaStatus = 200 →
      resolve_new_name env.element rename = .ok (nn, w) →
      FS.read fs (local_name_of env.element) = none →
      FS.read fs nn = some d →
      checksum_file oss fs nn env.element.metadata.checksum.algorithm true
        = .ok env.element.metadata.checksum.value →
      env.contentStatus = 200 →
      (download_data_element oss env rename fs).bytesWritten = env.content.length
      ∧ (download_data_element oss env rename fs).outcome ≠ .skipped)
    ∧ (∀ (oss : String → List Nat → String) (env : RemoteEnv) (fs : FS)
        (c : String) (d : List Nat),
      env.metaStatus = 200 →
      FS.read fs (local_name_of env.element) = some d →
      checksum_file oss fs (local_name_of env.element)
          env.element.metadata.checksum.algorithm true = .ok c →
      c ≠ env.element.metadata.checksum.value →
      env.contentStatus = 200 →
      download_data_element oss env "ergo_id" fs
        = ⟨.completed, FS.write fs (local_name_of env.element) env.content,
            env.content.length⟩)
    ∧ (∀ (oss : String → List Nat → String) (env : RemoteEnv) (rename nn : String)
        (w : Bool) (fs : FS),
      env.metaStatus = 200 →
      resolve_new_name env.element rename = .ok (nn, w) →
      nn ≠ local_name_of env.element →
      skip_check oss env fs (local_name_of env.element) = none →
      FS.read fs nn = none →
      env.contentStatus = 200 →
      download_data_element oss env rename fs
        = ⟨.completed,
            FS.rename (FS.write fs (local_name_of env.element) env.content)
              (local_name_of env.element) nn, env.content.length⟩) := by
  refine ⟨?_, ?_, ?_⟩
  · intro oss env rename nn w fs d h200 hres hln hnn hmatch hcs
    have hskip : skip_check oss env fs (local_name_of env.element) = none := by
      unfold skip_check
      rw [hln]
    rw [download_unfold_ok oss env rename fs nn w h200 hres, hskip]
    show (stream_and_rename env (local_name_of env.element) nn fs).bytesWritten
          = env.content.length
      ∧ (stream_and_rename env (local_name_of env.element) nn fs).outcome ≠ .skipped
    rw [stream_content env (local_name_of env.element) nn fs hcs]
    split
    · split
      · exact ⟨rfl, fun hc => DLOutcome.noConfusion hc⟩
      · split
        · exact ⟨rfl, fun hc => DLOutcome.noConfusion hc⟩
        · exact ⟨rfl, fun hc => DLOutcome.noConfusion hc⟩
    · exact ⟨rfl, fun hc => DLOutcome.noConfusion hc⟩
  · intro oss env fs c d h200 hread hck hnev hcs
    have hres : resolve_new_name env.element "ergo_id"
        = .ok (local_name_of env.element, false) := by
      unfold resolve_new_name
      rw [if_neg (by decide), if_neg (by decide)]
    have hskip : skip_check oss env fs (local_name_of env.element) = none := by
      unfold skip_check
      rw [hread]
      show (match checksum_file oss fs (local_name_of env.element)
            env.element.metadata.checksum.algorithm true with
          | .error e => some (⟨.checksumError e, fs, 0⟩ : DLResult)
          | .ok c =>
              if c = env.element.metadata.checksum.value then
                some (⟨.skipped, fs, 0⟩ : DLResult)
              else none)
        = none
      rw [hck]
      show (if c = env.element.metadata.checksum.value
          then some (⟨.skipped, fs, 0⟩ : DLResult) else none) = none
      rw [if_neg hnev]
    rw [download_unfold_ok oss env "ergo_id" fs (local_name_of env.element) false
      h200 hres, hskip]
    show stream_and_rename env (local_name_of env.element)
        (local_name_of env.element) fs = _
    rw [stream_content env (local_name_of env.element) (local_name_of env.element)
      fs hcs, if_neg (by simp)]
  · intro oss env rename nn w fs h200 hres hne hskip hnn hcs
    rw [download_unfold_ok oss env rename fs nn w h200 hres, hskip]
    show stream_and_rename env (local_name_of env.element) nn fs = _
    rw [stream_content env (local_name_of env.element) nn fs hcs, if_pos hne]
    have hnone : FS.read (FS.write fs (local_name_of env.element) env.content) nn
        = none := by
      rw [FS.read_write_ne fs (local_name_of env.element) nn env.content hne]
      exact hnn
    rw [if_neg (by rw [hnone]; simp)]
    rw [FS.read_write_self fs (local_name_of env.element) env.content]

/-- Element for the C10 witness: a stale local copy at the id-based
path whose recorded md5 does not match. -/
def envC10 : RemoteEnv :=
  ⟨⟨"e10", "e10.bin", ⟨"bin"⟩, 2, ⟨none, none, ⟨"md5", "x"⟩⟩⟩, 200, 200, [9, 9]⟩

/-- C10 witness: the stale id-based copy is overwritten without any
error, through clause (ii) of the theorem. -/
theorem claim_c10_witness :
    download_data_element (fun _ _ => "stale") envC10 "ergo_id"
        [(local_name_of envC10.element, [1])]
      = ⟨.completed,
          FS.write [(local_name_of envC10.element, [1])]
            (local_name_of envC10.element) envC10.content,
          envC10.content.length⟩ :=
  claim_c10_id_based_paths.2.1 (fun _ _ => "stale") envC10
    [(local_name_of envC10.element, [1])] "stale" [1] rfl rfl rfl (by decide) rfl

/-! ### Claim C9 -/

/-- First element of the C9 counterexample batch: its metadata request
answers 404. -/
def envC9bad : RemoteEnv :=
  ⟨⟨"b9", "b9.bin", ⟨"bin"⟩, 1, ⟨none, none, ⟨"etag", "v"⟩⟩⟩, 404, 200, [1]⟩

/-- Second element of the C9 counterexample batch: perfectly healthy,
but never reached. -/
def envC9good : RemoteEnv :=
  ⟨⟨"g9", "g9.bin", ⟨"bin"⟩, 1, ⟨none, none, ⟨"etag", "v"⟩⟩⟩, 200, 200, [2]⟩

/-- C9 counterexample.  A per-item `RemoteError` (404 on the first
element's metadata request) terminates the whole batch: only one
outcome is produced, the batch is marked aborted, nothing is written —
although the second element alone would have completed.  This refutes
the claim that the remaining elements are still processed. -/
theorem claim_c9_counterexample :
    project_download (fun _ _ => "") [] "ergo_id" [envC9bad, envC9good] []
        = ([], [.remoteError], true)
    ∧ (download_data_element (fun _ _ => "") envC9good "ergo_id" []).outcome
        = .completed := by
  exact ⟨by decide, by decide⟩

/-- C9 (amended).  Batch downloads do NOT continue past a per-item
`RemoteError`: the `RuntimeError` raised on a non-200 metadata
response is uncaught in `project_download`, so the batch aborts at
that element with the remaining elements unprocessed.  The loop
continues to the next element exactly when an element's call returns
normally (skipped or completed, `fatal` false) — which includes the
silently ignored non-200 content response of C3. -/
theorem claim_c9_batch_abort_on_remote_error :
    (∀ (oss : String → List Nat → String) (rename : String) (env : RemoteEnv)
        (rest : List RemoteEnv) (fs : FS),
      env.metaStatus ≠ 200 →
      project_download oss [] rename (env :: rest) fs = (fs, [.remoteError], true))
    ∧ (∀ (oss : String → List Nat → String) (rename : String) (env : RemoteEnv)
        (rest : List RemoteEnv) (fs : FS),
      fatal (download_data_element oss env rename fs).outcome = false →
      project_download oss [] rename (env :: rest) fs
        = ((project_download oss [] rename rest
              (download_data_element oss env rename fs).fs).1,
           (download_data_element oss env rename fs).outcome
             :: (project_download oss [] rename rest
                  (download_data_element oss env rename fs).fs).2.1,
           (project_download oss [] rename rest
              (download_data_element oss env rename fs).fs).2.2)) := by
  constructor
  · intro oss rename env rest fs h
    rw [project_download_cons, if_neg (by simp),
      download_meta_fail oss env rename fs h]
    rfl
  · intro oss rename env rest fs hnf
    rw [project_download_cons, if_neg (by simp)]
    simp only [hnf, Bool.false_eq_true, if_false]

/-- C9 witness: a single-element batch whose metadata request answers
503 aborts immediately, through the first clause of the amended
theorem. -/
theorem claim_c9_witness :
    (⟨⟨"w9", "n", ⟨"bin"⟩, 0, ⟨none, none, ⟨"etag", "v"⟩⟩⟩, 503, 200, []⟩
        : RemoteEnv).metaStatus ≠ 200
    ∧ project_download (fun _ _ => "") [] "ergo_id"
        [⟨⟨"w9", "n", ⟨"bin"⟩, 0, ⟨none, none, ⟨"etag", "v"⟩⟩⟩, 503, 200, []⟩] []
      = ([], [.remoteError], true) :=
  ⟨by decide,
    claim_c9_batch_abort_on_remote_error.1 (fun _ _ => "") "ergo_id"
      ⟨⟨"w9", "n", ⟨"bin"⟩, 0, ⟨none, none, ⟨"etag", "v"⟩⟩⟩, 503, 200, []⟩ [] []
      (by decide)⟩

end Ergo
